import Mathlib

/-
  Verification development for pglite: a PostgreSQL-wire-protocol gateway
  over per-user/per-database SQLite files.

  The definitions below are a shallow embedding of the Rust sources:
    - src/backend/simple_backend.rs  (worker, pool, type derivation)
    - src/backend/mod.rs             (message/response types, type bridge)
    - src/query_handler.rs           (query processor, parameter coercion)
    - src/connection.rs              (error dispatch, pre-startup peeks)
    - src/auth/basic_authenticator.rs (cleartext authenticator)
    - src/config.rs                  (configuration record)

  Conventions: Rust machine integers are modelled as Int/Nat; f32/f64
  values are carried opaquely as their IEEE-754 bit patterns (no claim
  computes with reals); a Rust panic (unwrap/unimplemented) is modelled
  by an explicit outcome constructor, since a panic kills the thread
  instead of producing a value.
-/

namespace PgLite

/-- Model of rusqlite::types::Type, the SQLite storage-class tag. -/
inductive SType where
  | integer
  | real
  | text
  | blob
  | null
  deriving DecidableEq, Repr

/-- Model of rusqlite::types::Value. Reals are carried as IEEE-754 bit
patterns: no claim computes with them, they are only moved around. -/
inductive Value where
  | null
  | integer (i : Int)
  | real (bits : UInt64)
  | text (s : String)
  | blob (bs : List UInt8)
  deriving DecidableEq, Repr

/-- Model of pgwire ErrorInfo: severity, SQLSTATE code, message. -/
structure ErrorInfo where
  severity : String
  code : String
  message : String
  deriving DecidableEq, Repr

/-- Model of pgwire::error::PgWireError restricted to the variants this
program constructs: UserError(ErrorInfo), ApiError(boxed error, carried
here as its display string), and a catch-all for the remaining variants
of the library enum (IoError, decoding errors, ...). -/
inductive PgWireError where
  | userError (info : ErrorInfo)
  | apiError (message : String)
  | otherError (message : String)
  deriving DecidableEq, Repr

/-- Model of backend::Field (src/backend/mod.rs): ordinal, column name,
storage-class tag. -/
structure Field where
  ordinal : Nat
  name : String
  field_type : SType
  deriving DecidableEq, Repr

/-- Model of backend::Record: ordered list of values. -/
structure Record where
  values : List Value
  deriving DecidableEq, Repr

/-- Model of backend::PgLiteDBResponse. -/
structure PgLiteDBResponse where
  result_schema : Option (List Field)
  result : Option (List Record)
  error : Option PgWireError
  deriving DecidableEq, Repr

/-- Model of str::to_uppercase restricted to ASCII (every string the
program matches on is ASCII; Char.toUpper is the ASCII uppercasing).
Defined through the character list so that it computes by kernel
reduction. -/
def to_uppercase (s : String) : String :=
  String.mk (s.data.map Char.toUpper)

/-- Model of str::starts_with, through the character list so that it
computes by kernel reduction. -/
def starts_with (s p : String) : Bool :=
  p.data.isPrefixOf s.data

/-- Type derivation from a declared column type's text, from
SimplePgLiteDBBackend::get_sqlite_type_for_type
(src/backend/simple_backend.rs lines 124-149): uppercase the name, keep
the characters before the first space or opening parenthesis, and match
the resulting string. -/
def get_sqlite_type_for_type (name : String) : Except PgWireError SType :=
  let type_str := String.mk ((to_uppercase name).data.takeWhile (fun ch => ch != ' ' && ch != '('))
  match type_str with
  | "INT" => .ok .integer
  | "VARCHAR" => .ok .text
  | "DATE" => .ok .real
  | "TIME" => .ok .real
  | "TIMESTAMP" => .ok .real
  | "TEXT" => .ok .text
  | "BINARY" => .ok .blob
  | "FLOAT" => .ok .real
  | "SERIAL" => .ok .integer
  | _ => .error (.userError ⟨"ERROR", "42846", "Unsupported data type: " ++ name⟩)

/-- Modelled from the spec: the function strip_qual named in §8 law 8,
"take the prefix up to the first space or open parenthesis". -/
def strip_qual (t : String) : String :=
  String.mk (t.data.takeWhile (fun ch => ch != ' ' && ch != '('))

/-- Modelled from the spec: the declared-type table of §4.6 as an
association list, in the spec's row order. -/
def specDeclaredTypeTable : List (String × SType) :=
  [("INT", .integer), ("SERIAL", .integer),
   ("VARCHAR", .text), ("TEXT", .text),
   ("DATE", .real), ("TIME", .real), ("TIMESTAMP", .real), ("FLOAT", .real),
   ("BINARY", .blob)]

/-- First-match lookup in an association list (keys compared by
propositional equality). -/
def tableLookup : List (String × SType) → String → Option SType
  | [], _ => none
  | (k, v) :: rest, s => if s = k then some v else tableLookup rest s

/-- Modelled from the spec: type derivation as §4.6 words it — uppercase,
strip qualifiers, look the result up in the table, anything else is
SQLSTATE 42846 severity ERROR. -/
def specTypeForDeclared (t : String) : Except PgWireError SType :=
  match tableLookup specDeclaredTypeTable (strip_qual (to_uppercase t)) with
  | some st => .ok st
  | none => .error (.userError ⟨"ERROR", "42846", "Unsupported data type: " ++ t⟩)

/-! Cleartext authenticator (src/auth/basic_authenticator.rs). -/

/-- Model of PathBuf::from(a).join(b): joining with a path separator,
except that an absolute second component replaces the first. -/
def path_join (a b : String) : String :=
  if starts_with b "/" then b else a ++ "/" ++ b

/-- Expected password selected by
BasicPasswordAuthenticatorFactory::create_authenticator
(src/auth/basic_authenticator.rs lines 15-20): the configured
auth_config, defaulting to the literal "123" when unset. -/
def create_authenticator (auth_config : Option String) : String :=
  auth_config.getD "123"

/-- Model of BasicPasswordAuthenticator::verify_identity
(src/auth/basic_authenticator.rs lines 34-57). The credential frame is
modelled as the decoded password, or none when into_password() fails on
a malformed frame. The returned metadata HashMap is modelled as an
association list. -/
def verify_identity (expected_password : String) (credential_data : Option String)
    (username database : String) : Except ErrorInfo (List (String × String)) :=
  match credential_data with
  | none => .error ⟨"FATAL", "28P01",
      "Authentication was not successful, please check you have provided all the credentials required for this database."⟩
  | some password =>
    if expected_password = password then
      .ok [("user", username), ("database", database),
           ("dbpath", path_join username database)]
    else
      .error ⟨"FATAL", "28P01",
        "Authentication was not successful, please check you have provided the correct credentials for this database."⟩

/-! Query processor round trips (src/query_handler.rs). -/

/-- Outcome of crossbeam waiter.recv_timeout on the single-shot response
channel of a backend request. -/
inductive RecvResult where
  | ok (resp : PgLiteDBResponse)
  | timeout
  | disconnected
  deriving DecidableEq, Repr

/-- Wait bound of every backend round trip: Duration::from_secs(10) at
the three recv_timeout call sites (src/query_handler.rs lines 27, 66,
91). -/
def backendWaitSeconds : Nat := 10

/-- Translation of the recv outcome inside SimpleQueryHandler::do_query
(src/query_handler.rs lines 27-37). -/
def do_query_recv_simple : RecvResult → Except PgWireError PgLiteDBResponse
  | .ok msg => .ok msg
  | .timeout => .error (.userError
      ⟨"FATAL", "XX000", "Timeout waiting for response from the database"⟩)
  | .disconnected => .error (.userError
      ⟨"FATAL", "XX000", "Was disconnected from the database backend"⟩)

/-- Translation of the recv outcome inside ExtendedQueryHandler::do_query
(src/query_handler.rs lines 66-76). -/
def do_query_recv_extended : RecvResult → Except PgWireError PgLiteDBResponse
  | .ok msg => .ok msg
  | .timeout => .error (.userError
      ⟨"FATAL", "XX000", "Timeout waiting for response from the database"⟩)
  | .disconnected => .error (.userError
      ⟨"FATAL", "XX000", "Was disconnected from the database backend"⟩)

/-- Translation of the recv outcome inside do_describe
(src/query_handler.rs lines 91-101). -/
def do_describe_recv : RecvResult → Except PgWireError PgLiteDBResponse
  | .ok msg => .ok msg
  | .timeout => .error (.userError
      ⟨"FATAL", "XX000", "Timeout waiting for response from the database"⟩)
  | .disconnected => .error (.userError
      ⟨"FATAL", "XX000", "Was disconnected from the database backend"⟩)

/-- Simple-query round trip as a function of the channel behaviour: the
processor waits backendWaitSeconds seconds and maps the outcome
(src/query_handler.rs lines 24-37, before response translation). -/
def do_query_simple_wait (recv : Nat → RecvResult) : Except PgWireError PgLiteDBResponse :=
  do_query_recv_simple (recv backendWaitSeconds)

/-- Extended-execute round trip as a function of the channel behaviour
(src/query_handler.rs lines 63-76). -/
def do_query_extended_wait (recv : Nat → RecvResult) : Except PgWireError PgLiteDBResponse :=
  do_query_recv_extended (recv backendWaitSeconds)

/-- Describe round trip as a function of the channel behaviour
(src/query_handler.rs lines 88-101). -/
def do_describe_wait (recv : Nat → RecvResult) : Except PgWireError PgLiteDBResponse :=
  do_describe_recv (recv backendWaitSeconds)

/-! Parameter coercion (PgQueryProcessor::parse_params,
src/query_handler.rs lines 159-206). -/

/-- Model of the pgwire parameter-type OIDs the code matches on; every
other OID (UUID among them) falls in the catch-all. -/
inductive PgType where
  | bool | int2 | int4 | int8 | float4 | float8 | text | varchar | bytea
  | uuid
  | otherOid (oid : Nat)
  deriving DecidableEq, Repr

/-- Value decoded by portal.parameter::<T> for the requested Rust type.
Reals are carried as IEEE-754 bit patterns of the widened f64. -/
inductive Decoded where
  | dBool (b : Bool)
  | dInt (i : Int)
  | dReal (bits : UInt64)
  | dText (s : String)
  | dBlob (bs : List UInt8)
  deriving DecidableEq, Repr

/-- Outcome of portal.parameter::<T>(idx, ty): a decoding Err (whose
unwrap panics), a decoded None (absent value), or a decoded value. -/
inductive DecodeOutcome where
  | fail
  | absent
  | val (v : Decoded)
  deriving DecidableEq, Repr

/-- Model of a pgwire Portal as parse_params consumes it: the bound
parameter count, the statement's declared parameter OIDs, and the
library's per-ordinal decoder. -/
structure PortalModel where
  parameter_len : Nat
  parameter_types : List PgType
  parameter : Nat → PgType → DecodeOutcome

/-- Model of backend::PgLiteDBParam (src/backend/mod.rs lines 63-69). -/
structure PgLiteDBParam where
  name : Option String
  ordinal : Option Nat
  param_type : Option PgType
  value : Value
  deriving DecidableEq, Repr

/-- Loop body of parse_params at one ordinal (src/query_handler.rs
lines 161-203). A none result models a panic of the connection task:
either a failed .unwrap() on the decode, or the unimplemented! arm for
an unsupported parameter OID. When the statement declares no type at
this ordinal, the parameter is Value::Null without consulting the
decoder. -/
def parse_param_at (portal : PortalModel) (idx : Nat) : Option PgLiteDBParam :=
  match portal.parameter_types.get? idx with
  | some pt =>
    match pt with
    | .bool =>
      match portal.parameter idx .bool with
      | .fail => none
      | .absent => some ⟨none, some idx, none, .null⟩
      | .val (.dBool b) => some ⟨none, some idx, none, .integer (if b then 1 else 0)⟩
      | .val _ => none
    | .int2 =>
      match portal.parameter idx .int2 with
      | .fail => none
      | .absent => some ⟨none, some idx, none, .null⟩
      | .val (.dInt i) => some ⟨none, some idx, none, .integer i⟩
      | .val _ => none
    | .int4 =>
      match portal.parameter idx .int4 with
      | .fail => none
      | .absent => some ⟨none, some idx, none, .null⟩
      | .val (.dInt i) => some ⟨none, some idx, none, .integer i⟩
      | .val _ => none
    | .int8 =>
      match portal.parameter idx .int8 with
      | .fail => none
      | .absent => some ⟨none, some idx, none, .null⟩
      | .val (.dInt i) => some ⟨none, some idx, none, .integer i⟩
      | .val _ => none
    | .text =>
      match portal.parameter idx .text with
      | .fail => none
      | .absent => some ⟨none, some idx, none, .null⟩
      | .val (.dText s) => some ⟨none, some idx, none, .text s⟩
      | .val _ => none
    | .varchar =>
      match portal.parameter idx .varchar with
      | .fail => none
      | .absent => some ⟨none, some idx, none, .null⟩
      | .val (.dText s) => some ⟨none, some idx, none, .text s⟩
      | .val _ => none
    | .float4 =>
      match portal.parameter idx .float4 with
      | .fail => none
      | .absent => some ⟨none, some idx, none, .null⟩
      | .val (.dReal bits) => some ⟨none, some idx, none, .real bits⟩
      | .val _ => none
    | .float8 =>
      match portal.parameter idx .float8 with
      | .fail => none
      | .absent => some ⟨none, some idx, none, .null⟩
      | .val (.dReal bits) => some ⟨none, some idx, none, .real bits⟩
      | .val _ => none
    | .bytea =>
      match portal.parameter idx .bytea with
      | .fail => none
      | .absent => some ⟨none, some idx, none, .null⟩
      | .val (.dBlob bs) => some ⟨none, some idx, none, .blob bs⟩
      | .val _ => none
    | _ => none
  | none => some ⟨none, some idx, none, .null⟩

/-- Loop of parse_params over ordinals start, start+1, ... (count many),
pushing each coerced parameter; a none propagates the panic. -/
def parse_params_from (portal : PortalModel) : Nat → Nat → Option (List PgLiteDBParam)
  | _, 0 => some []
  | idx, n + 1 =>
    match parse_param_at portal idx with
    | none => none
    | some p => (parse_params_from portal (idx + 1) n).map (p :: ·)

/-- Model of PgQueryProcessor::parse_params (src/query_handler.rs lines
159-206): coerce ordinals 0 .. portal.parameter_len. -/
def parse_params (portal : PortalModel) : Option (List PgLiteDBParam) :=
  parse_params_from portal 0 portal.parameter_len

/-! Backend worker (SimplePgLiteDBBackend, src/backend/simple_backend.rs).
The rusqlite connection is modelled as an oracle: what prepare,
prepare_cached and execute return for a given SQL text, and what a
prepared statement's columns, row set and affected-row count are. -/

/-- Model of a rusqlite column: name and declared type text
(Column::decl_type() is None for expression columns). -/
structure Column where
  name : String
  decl_type : Option String
  deriving DecidableEq, Repr

/-- Model of a prepared rusqlite Statement: its column metadata, the
rows Statement::query yields for given bound parameter values, and the
count Statement::execute reports for given bound parameter values.
Errors are carried as their display strings. -/
structure PreparedStmt where
  columns : List Column
  query_rows : List Value → Except String (List (List Value))
  exec : List Value → Except String Nat

/-- Model of a rusqlite Connection as the worker uses it. -/
structure SQLiteConn where
  prepare : String → Except String PreparedStmt
  prepare_cached : String → Except String PreparedStmt
  execute : String → Except String Nat

/-- Model of SimplePgLiteDBBackend::build_record_schema_from_statement
(src/backend/simple_backend.rs lines 151-163) at one ordinal onwards.
A none result models the worker thread panicking: col.decl_type()
.unwrap() on an absent declared type, or .unwrap() on the Err of
get_sqlite_type_for_type. -/
def build_fields : Nat → List Column → Option (List Field)
  | _, [] => some []
  | idx, c :: rest =>
    match c.decl_type with
    | none => none
    | some d =>
      match get_sqlite_type_for_type d with
      | .error _ => none
      | .ok ty => (build_fields (idx + 1) rest).map (⟨idx, c.name, ty⟩ :: ·)

/-- Model of build_record_schema_from_statement over all columns,
enumerated from ordinal 0. -/
def build_record_schema_from_statement (cols : List Column) : Option (List Field) :=
  build_fields 0 cols

/-- Model of SimplePgLiteDBBackend::build_records
(src/backend/simple_backend.rs lines 165-176): materialize every row,
reading columns 0 .. num_fields with row.get_unwrap. A none models the
panic of get_unwrap on a missing column. -/
def build_records (rows : List (List Value)) (num_fields : Nat) : Option (List Record) :=
  rows.mapM (fun r => ((List.range num_fields).mapM (fun i => r.get? i)).map Record.mk)

/-- Model of SimplePgLiteDBBackend::query (src/backend/simple_backend.rs
lines 185-216). The outer Option is the worker thread itself: none means
it panicked before producing any result. SQLite errors are wrapped as
PgWireError::ApiError. -/
def backend_query (con : SQLiteConn) (query : String) :
    Option (Except PgWireError PgLiteDBResponse) :=
  if starts_with (to_uppercase query) "SELECT" then
    match con.prepare query with
    | .error e => some (.error (.apiError e))
    | .ok stmt =>
      match build_record_schema_from_statement stmt.columns with
      | none => none
      | some fields =>
        match stmt.query_rows [] with
        | .error e => some (.error (.apiError e))
        | .ok rows =>
          match build_records rows fields.length with
          | none => none
          | some recs => some (.ok ⟨some fields, some recs, none⟩)
  else
    match con.execute query with
    | .error e => some (.error (.apiError e))
    | .ok affected_rows =>
      some (.ok ⟨some [⟨0, "OK", .integer⟩],
                 some [⟨[.integer (Int.ofNat affected_rows)]⟩], none⟩)

/-- Model of SimplePgLiteDBBackend::query_with_params
(src/backend/simple_backend.rs lines 218-255): prepare through the
statement cache, pass the parameter values positionally, then the same
SELECT/non-SELECT split. -/
def backend_query_with_params (con : SQLiteConn) (query : String)
    (params : List PgLiteDBParam) : Option (Except PgWireError PgLiteDBResponse) :=
  match con.prepare_cached query with
  | .error e => some (.error (.apiError e))
  | .ok stmt =>
    let sql_params := params.map (·.value)
    if starts_with (to_uppercase query) "SELECT" then
      match build_record_schema_from_statement stmt.columns with
      | none => none
      | some fields =>
        match stmt.query_rows sql_params with
        | .error e => some (.error (.apiError e))
        | .ok rows =>
          match build_records rows fields.length with
          | none => none
          | some recs => some (.ok ⟨some fields, some recs, none⟩)
    else
      match stmt.exec sql_params with
      | .error e => some (.error (.apiError e))
      | .ok affected_rows =>
        some (.ok ⟨some [⟨0, "OK", .integer⟩],
                   some [⟨[.integer (Int.ofNat affected_rows)]⟩], none⟩)

/-- Model of SimplePgLiteDBBackend::describe_query
(src/backend/simple_backend.rs lines 257-264): prepare through the
cache, return the schema only. -/
def backend_describe_query (con : SQLiteConn) (query : String) :
    Option (Except PgWireError PgLiteDBResponse) :=
  match con.prepare_cached query with
  | .error e => some (.error (.apiError e))
  | .ok stmt =>
    match build_record_schema_from_statement stmt.columns with
    | none => none
    | some fields => some (.ok ⟨some fields, none, none⟩)

/-- Tag of backend::MessageType (src/backend/mod.rs lines 71-76). -/
inductive MessageType where
  | simpleQuery
  | queryWithParams
  | describe
  deriving DecidableEq, Repr

/-- What the worker loop does with one inbound message, seen from the
response channel: either it panicked (the single-shot sender is dropped
without a send) or it sent exactly one response. -/
inductive WorkerOutcome where
  | panicked
  | responded (resp : PgLiteDBResponse)
  deriving Repr

/-- Model of the worker loop body for one message
(src/backend/simple_backend.rs lines 61-79): dispatch on the message
type (missing params default to the empty vector), then send either the
successful response or an error response carrying the error. -/
def worker_handle_message (con : SQLiteConn) (mt : MessageType) (query : String)
    (params : Option (List PgLiteDBParam)) : WorkerOutcome :=
  let result :=
    match mt with
    | .simpleQuery => backend_query con query
    | .queryWithParams => backend_query_with_params con query (params.getD [])
    | .describe => backend_describe_query con query
  match result with
  | none => .panicked
  | some (.ok res) => .responded res
  | some (.error err) => .responded ⟨none, none, some err⟩

/-- What the query processor's recv_timeout observes given the worker's
outcome on its request (assuming the worker acted within the wait
bound): a panicked worker dropped the single-shot sender, so the
channel reports Disconnected; otherwise the sent response arrives. -/
def observe_worker : WorkerOutcome → RecvResult
  | .panicked => .disconnected
  | .responded r => .ok r

/-! Connection handler error dispatch
(PgLiteConnection::send_error_to_client, src/connection.rs lines
189-211). -/

/-- Backend wire messages that send_error_to_client can emit. -/
inductive BackendMsg where
  | errorResponse (info : ErrorInfo)
  | readyForQuery (status : Char)
  deriving DecidableEq, Repr

/-- Model of pgwire READY_STATUS_IDLE. -/
def READY_STATUS_IDLE : Char := 'I'

/-- Observable effect of send_error_to_client: the messages written to
the socket, and whether the stream was then closed. -/
structure SendErrorOutcome where
  sent : List BackendMsg
  closed : Bool
  deriving DecidableEq, Repr

/-- Model of PgLiteConnection::send_error_to_client (src/connection.rs
lines 189-211). Dispatch is on the error VARIANT: a UserError is
forwarded as-is (whatever its severity) followed by ReadyForQuery(Idle);
an ApiError is re-labelled ERROR/XX000 followed by ReadyForQuery(Idle);
every other variant is sent as FATAL/XX000 and the stream is closed. -/
def send_error_to_client : PgWireError → SendErrorOutcome
  | .userError info => ⟨[.errorResponse info, .readyForQuery READY_STATUS_IDLE], false⟩
  | .apiError e => ⟨[.errorResponse ⟨"ERROR", "XX000", e⟩,
                     .readyForQuery READY_STATUS_IDLE], false⟩
  | .otherError e => ⟨[.errorResponse ⟨"FATAL", "XX000", e⟩], true⟩

/-- Severity string carried by an error, as §7 classifies it. -/
def severityOf : PgWireError → String
  | .userError info => info.severity
  | .apiError _ => "ERROR"
  | .otherError _ => "FATAL"

/-! Pre-startup peeks (src/connection.rs lines 213-261). -/

/-- Constant GSSENC_REQUEST_MAGIC_NUMBER (src/connection.rs line 25). -/
def GSSENC_REQUEST_MAGIC_NUMBER : Int := 80877104

/-- Constant SslRequest::BODY_MAGIC_NUMBER from pgwire: the standard
PostgreSQL SSL-request code. -/
def SSL_BODY_MAGIC_NUMBER : Int := 80877103

/-- Big-endian signed 32-bit read, as bytes::Buf::get_i32 does it. -/
def get_i32 (b0 b1 b2 b3 : UInt8) : Int :=
  let u : Nat := b0.toNat * 2 ^ 24 + b1.toNat * 2 ^ 16 + b2.toNat * 2 ^ 8 + b3.toNat
  if u < 2 ^ 31 then (u : Int) else (u : Int) - 2 ^ 32

/-- Model of PgLiteConnection::peek_for_magic (src/connection.rs lines
236-261) on a stream with its pending bytes made explicit: peek the
first 8 bytes as length then magic; on a match consume them (when
asked); otherwise leave the stream untouched. An ended stream shorter
than 8 bytes reports no match. Returns the match flag and the bytes
still in the stream. -/
def peek_for_magic (stream : List UInt8) (magic_number : Int)
    (consume_bytes_if_found : Bool) : Bool × List UInt8 :=
  match stream with
  | b0 :: b1 :: b2 :: b3 :: b4 :: b5 :: b6 :: b7 :: rest =>
    if get_i32 b4 b5 b6 b7 = magic_number then
      if consume_bytes_if_found then (true, rest)
      else (true, b0 :: b1 :: b2 :: b3 :: b4 :: b5 :: b6 :: b7 :: rest)
    else (false, b0 :: b1 :: b2 :: b3 :: b4 :: b5 :: b6 :: b7 :: rest)
  | short => (false, short)

/-- Model of PgLiteConnection::peek_for_gssenc_request
(src/connection.rs lines 227-233): on a GSSENC match, consume the 8
bytes and write the single byte 'N'. Returns the bytes written and the
remaining stream. -/
def peek_for_gssenc_request (stream : List UInt8) : List Char × List UInt8 :=
  let (found, rest) := peek_for_magic stream GSSENC_REQUEST_MAGIC_NUMBER true
  if found then (['N'], rest) else ([], rest)

/-- Model of PgLiteConnection::peek_for_tls_request (src/connection.rs
lines 213-225): on an SSL-request match, consume the 8 bytes and write
'S' when a TLS acceptor is configured, 'N' otherwise. Returns the bytes
written, the remaining stream, and the is_tls result. -/
def peek_for_tls_request (stream : List UInt8) (tls_supported : Bool) :
    List Char × List UInt8 × Bool :=
  let (found, rest) := peek_for_magic stream SSL_BODY_MAGIC_NUMBER true
  if found then
    if tls_supported then (['S'], rest, true) else (['N'], rest, false)
  else ([], rest, false)

/-- Constant fact of PgLiteConnection::handle (src/connection.rs line
66): the TLS acceptor is unconditionally absent in this build. -/
def tls_acceptor_configured : Bool := false

/-! Backend pool (SimplePgLiteDBBackendFactory, src/backend/
simple_backend.rs lines 31-116). The factory is shared across all
connection tasks as a server-wide Arc of Mutex (src/server.rs lines
26, 35, 50), and the only call site of create_backend holds that Mutex
for the duration of the call (src/connection.rs line 150). Each
create_backend call — its read-lock cache lookup (lines 102-110) and,
on a miss, the write-lock insert plus worker spawn of
spawn_backend_connection (lines 31-93) — is therefore one atomic step
with respect to every other connection: concurrent callers are fully
serialized, and the pool evolves by a sequence of whole calls. The
window modelled is one with no idle-timeout eviction, the instant the
claim speaks about. -/

/-- Insert-or-replace into an association list, as HashMap::insert. -/
def assoc_insert (k : String) (v : Nat) : List (String × Nat) → List (String × Nat)
  | [] => [(k, v)]
  | (k', v') :: rest => if k' = k then (k, v) :: rest else (k', v') :: assoc_insert k v rest

/-- Association-list lookup, as HashMap::get. -/
def assoc_get (k : String) : List (String × Nat) → Option Nat
  | [] => none
  | (k', v) :: rest => if k' = k then some v else assoc_get k rest

/-- Shared pool state: the db_cache map from Database Path Key to the
registered handle (identified by the creating caller), and the worker
threads spawned and still alive (none has reached its idle timeout in
the window considered). -/
structure PoolState where
  cache : List (String × Nat)
  live_workers : List (String × Nat)
  deriving DecidableEq, Repr

/-- Model of one whole create_backend call (src/backend/
simple_backend.rs lines 96-116) for key k by the caller identified as
tid, atomic because the caller holds the server-wide factory Mutex
(src/connection.rs line 150): the read-locked cache lookup either
returns the cached handle unchanged, or — via spawn_backend_connection
(lines 31-93) — the write-locked insert registers a fresh handle and
the worker thread is spawned. Returns the handle handed to the caller
and the new pool state. -/
def create_backend (s : PoolState) (tid : Nat) (k : String) : Nat × PoolState :=
  match assoc_get k s.cache with
  | some h => (h, s)
  | none => (tid, ⟨assoc_insert k tid s.cache, (k, tid) :: s.live_workers⟩)

/-- A sequence of serialized create_backend calls for key k, in the
order the factory Mutex granted them; returns the handle each caller
received and the final pool state. -/
def run_calls (k : String) : List Nat → PoolState → List Nat × PoolState
  | [], s => ([], s)
  | t :: rest, s =>
    let step := create_backend s t k
    let next := run_calls k rest step.2
    (step.1 :: next.1, next.2)

/-- Number of live worker threads serving key k. -/
def live_worker_count (s : PoolState) (k : String) : Nat :=
  (s.live_workers.filter (fun p => p.1 = k)).length

/-- Number of cache entries registered for key k. -/
def cache_entry_count (s : PoolState) (k : String) : Nat :=
  (s.cache.filter (fun p => p.1 = k)).length

/-! Concrete example inputs used to instantiate the theorems below. -/

/-- Portal of a Bind whose statement declares a UUID parameter at
ordinal 0 and an INT4 parameter at ordinal 1; the client supplied the
integer 7 for both. -/
def uuid_bind_portal : PortalModel :=
  { parameter_len := 2,
    parameter_types := [.uuid, .int4],
    parameter := fun _ _ => .val (.dInt 7) }

/-- Portal of a Bind with two bound parameters but only one declared
parameter type; the client supplied the integer 7 at both ordinals. -/
def short_typed_portal : PortalModel :=
  { parameter_len := 2,
    parameter_types := [.int4],
    parameter := fun _ _ => .val (.dInt 7) }

/-- Prepared statement with two declared columns and two rows. -/
def demo_stmt : PreparedStmt :=
  { columns := [⟨"id", some "INT"⟩, ⟨"name", some "VARCHAR(32)"⟩],
    query_rows := fun _ => .ok [[.integer 1, .text "a"], [.integer 2, .text "b"]],
    exec := fun _ => .ok 2 }

/-- Connection on which every prepare yields demo_stmt and every DML
statement reports 2 affected rows. -/
def demo_conn : SQLiteConn :=
  { prepare := fun _ => .ok demo_stmt,
    prepare_cached := fun _ => .ok demo_stmt,
    execute := fun _ => .ok 2 }

/-- Prepared statement of SELECT count(*) FROM t: its single result
column is an expression column, so its declared type is absent. -/
def exprcol_stmt : PreparedStmt :=
  { columns := [⟨"count(*)", none⟩],
    query_rows := fun _ => .ok [[.integer 0]],
    exec := fun _ => .ok 0 }

/-- Connection on which every prepare yields exprcol_stmt. -/
def exprcol_conn : SQLiteConn :=
  { prepare := fun _ => .ok exprcol_stmt,
    prepare_cached := fun _ => .ok exprcol_stmt,
    execute := fun _ => .ok 0 }

/-! Theorems. One theorem per claim of the specification review, with
helper lemmas and concrete witnesses. -/

/-- Helper: a loop of parse_params that produced a list maps each
ordinal to the coercion of the parameter at that ordinal. -/
theorem parse_params_from_get (portal : PortalModel) :
    ∀ (n s : Nat) (l : List PgLiteDBParam), parse_params_from portal s n = some l →
      ∀ i, i < n → l.get? i = parse_param_at portal (s + i) := by
  intro n
  induction n with
  | zero => intro s l _ i hi; exact absurd hi (Nat.not_lt_zero i)
  | succ n ih =>
    intro s l hl i hi
    unfold parse_params_from at hl
    cases hp : parse_param_at portal s with
    | none => rw [hp] at hl; cases hl
    | some p =>
      rw [hp] at hl
      cases hrec : parse_params_from portal (s + 1) n with
      | none => rw [hrec] at hl; cases hl
      | some rest =>
        rw [hrec] at hl
        simp only [Option.map_some] at hl
        cases hl
        cases i with
        | zero => simpa using hp.symm
        | succ i =>
          have h := ih (s + 1) rest hrec i (Nat.lt_of_succ_lt_succ hi)
          simpa [Nat.add_assoc, Nat.add_comm 1 i] using h

/-- Helper: the schema builder panics (returns none) as soon as one
column has an absent declared type or a declared type outside the
supported mapping, at any starting ordinal. -/
theorem build_fields_none_of_bad :
    ∀ (cols : List Column) (s : Nat),
      (∃ c ∈ cols, c.decl_type = none ∨
        ∃ d, c.decl_type = some d ∧ ∃ e, get_sqlite_type_for_type d = .error e) →
      build_fields s cols = none := by
  intro cols
  induction cols with
  | nil =>
    intro s h
    rcases h with ⟨c, hc, _⟩
    cases hc
  | cons c rest ih =>
    intro s h
    rcases h with ⟨c', hc', hbad⟩
    unfold build_fields
    rcases List.mem_cons.mp hc' with rfl | hmem
    · rcases hbad with hnone | ⟨d, hd, e, he⟩
      · rw [hnone]
      · rw [hd]
        dsimp only
        rw [he]
    · cases hdt : c.decl_type with
      | none => rfl
      | some d =>
        dsimp only
        cases hty : get_sqlite_type_for_type d with
        | error e => rfl
        | ok ty =>
          rw [ih (s + 1) ⟨c', hmem, hbad⟩]
          rfl

/-- Helper: once a handle is registered for the key, every further
serialized create_backend call is a cache hit — it returns that handle
and leaves the pool untouched. -/
theorem run_calls_cached (k : String) (h : Nat) :
    ∀ (callers : List Nat) (s : PoolState), assoc_get k s.cache = some h →
      run_calls k callers s = (List.replicate callers.length h, s) := by
  intro callers
  induction callers with
  | nil => intro s _; rfl
  | cons t rest ih =>
    intro s hs
    unfold run_calls create_backend
    rw [hs]
    dsimp only
    rw [ih s hs]
    rw [List.length_cons, List.replicate_succ]

/-- C1: every create_backend call runs while the caller holds the
server-wide factory Mutex, so concurrent callers — including two that
would both have missed the cache — are serialized into a sequence of
whole calls; starting from an empty pool, however many callers ask for
the same Database Path Key, exactly one worker thread is spawned and
registered for it (the first caller's), every later caller receives
that cached handle, and at most one live worker exists for the key. -/
theorem c1_pool_serialized_single_worker (k : String) (t : Nat) (rest : List Nat) :
    (run_calls k (t :: rest) ⟨[], []⟩).1 = List.replicate (rest.length + 1) t ∧
    live_worker_count (run_calls k (t :: rest) ⟨[], []⟩).2 k = 1 ∧
    cache_entry_count (run_calls k (t :: rest) ⟨[], []⟩).2 k = 1 := by
  have hfirst : create_backend ⟨[], []⟩ t k = (t, ⟨[(k, t)], [(k, t)]⟩) := rfl
  have hhit : assoc_get k ([(k, t)] : List (String × Nat)) = some t := by
    unfold assoc_get
    rw [if_pos rfl]
  have hrest := run_calls_cached k t rest ⟨[(k, t)], [(k, t)]⟩ hhit
  have hall : run_calls k (t :: rest) ⟨[], []⟩ =
      (t :: List.replicate rest.length t, ⟨[(k, t)], [(k, t)]⟩) := by
    unfold run_calls
    dsimp only
    rw [hfirst]
    dsimp only
    rw [hrest]
  rw [hall]
  refine ⟨by rw [List.replicate_succ], ?_, ?_⟩
  · simp [live_worker_count]
  · simp [cache_entry_count]

/-- C2 counterexample: the claim says every error of severity FATAL is
sent to the client and then the stream is closed. The backend-timeout
error has severity FATAL yet send_error_to_client takes the UserError
arm, which sends ErrorResponse followed by ReadyForQuery(Idle) and does
NOT close the stream. -/
theorem c2_fatal_user_error_keeps_stream_open :
    severityOf (.userError
      ⟨"FATAL", "XX000", "Timeout waiting for response from the database"⟩) = "FATAL" ∧
    (send_error_to_client (.userError
      ⟨"FATAL", "XX000", "Timeout waiting for response from the database"⟩)).closed = false ∧
    (send_error_to_client (.userError
      ⟨"FATAL", "XX000", "Timeout waiting for response from the database"⟩)).sent =
      [.errorResponse ⟨"FATAL", "XX000", "Timeout waiting for response from the database"⟩,
       .readyForQuery 'I'] :=
  ⟨rfl, rfl, rfl⟩

/-- C2 as amended: the per-frame handler dispatches on the error
VARIANT, not the severity. A UserError — whatever its severity, the
FATAL XX000 backend-timeout error included — is sent as ErrorResponse
followed by ReadyForQuery(Idle) with the stream left open; an ApiError
is re-labelled ERROR/XX000 and also followed by ReadyForQuery(Idle);
only the remaining library error variants are sent as FATAL/XX000 and
close the stream. -/
theorem c2_error_dispatch_by_variant :
    (∀ info, send_error_to_client (.userError info) =
      ⟨[.errorResponse info, .readyForQuery READY_STATUS_IDLE], false⟩) ∧
    (∀ m, send_error_to_client (.apiError m) =
      ⟨[.errorResponse ⟨"ERROR", "XX000", m⟩, .readyForQuery READY_STATUS_IDLE], false⟩) ∧
    (∀ m, send_error_to_client (.otherError m) =
      ⟨[.errorResponse ⟨"FATAL", "XX000", m⟩], true⟩) ∧
    (∀ info, (send_error_to_client (.userError info)).closed = false) :=
  ⟨fun _ => rfl, fun _ => rfl, fun _ => rfl, fun _ => rfl⟩

/-- C3: a SELECT or Describe whose prepared statement has a column with
an absent declared type, or a declared type outside the supported
mapping, makes the worker's schema-building code panic the worker
thread (no Backend Response carrying 42846 is ever sent); the client
then observes the channel-closed XX000 FATAL error, not a 42846
ErrorResponse. -/
theorem c3_bad_decltype_panics_worker (con : SQLiteConn) (q : String)
    (stmt : PreparedStmt)
    (hbad : ∃ c ∈ stmt.columns, c.decl_type = none ∨
      ∃ d, c.decl_type = some d ∧ ∃ e, get_sqlite_type_for_type d = .error e) :
    (starts_with (to_uppercase q) "SELECT" = true →
      con.prepare q = .ok stmt →
      worker_handle_message con .simpleQuery q none = .panicked ∧
      do_query_recv_simple (observe_worker (worker_handle_message con .simpleQuery q none)) =
        .error (.userError ⟨"FATAL", "XX000", "Was disconnected from the database backend"⟩)) ∧
    (starts_with (to_uppercase q) "SELECT" = true →
      con.prepare_cached q = .ok stmt →
      ∀ ps, worker_handle_message con .queryWithParams q ps = .panicked) ∧
    (con.prepare_cached q = .ok stmt →
      worker_handle_message con .describe q none = .panicked ∧
      do_describe_recv (observe_worker (worker_handle_message con .describe q none)) =
        .error (.userError ⟨"FATAL", "XX000", "Was disconnected from the database backend"⟩)) ∧
    "XX000" ≠ "42846" := by
  have hschema : build_record_schema_from_statement stmt.columns = none :=
    build_fields_none_of_bad stmt.columns 0 hbad
  refine ⟨?_, ?_, ?_, by decide⟩
  · intro hq hprep
    have hw : worker_handle_message con .simpleQuery q none = .panicked := by
      unfold worker_handle_message backend_query
      simp only [hq, if_true, hprep, hschema]
    exact ⟨hw, by rw [hw]; rfl⟩
  · intro hq hprep ps
    unfold worker_handle_message backend_query_with_params
    simp only [hq, if_true, hprep, hschema]
  · intro hprep
    have hw : worker_handle_message con .describe q none = .panicked := by
      unfold worker_handle_message backend_describe_query
      simp only [hprep, hschema]
    exact ⟨hw, by rw [hw]; rfl⟩

/-- C3 witness: SELECT count(*) FROM t prepared on a connection whose
statement's single column is an expression column with no declared
type; the worker panics and the client sees the FATAL XX000
disconnection error. -/
theorem c3_witness :
    (∃ c ∈ exprcol_stmt.columns, c.decl_type = none ∨
      ∃ d, c.decl_type = some d ∧ ∃ e, get_sqlite_type_for_type d = .error e) ∧
    worker_handle_message exprcol_conn .simpleQuery "SELECT count(*) FROM t" none =
      .panicked ∧
    do_query_recv_simple (observe_worker
      (worker_handle_message exprcol_conn .simpleQuery "SELECT count(*) FROM t" none)) =
      .error (.userError ⟨"FATAL", "XX000", "Was disconnected from the database backend"⟩) := by
  have hbad : ∃ c ∈ exprcol_stmt.columns, c.decl_type = none ∨
      ∃ d, c.decl_type = some d ∧ ∃ e, get_sqlite_type_for_type d = .error e :=
    ⟨⟨"count(*)", none⟩, by simp [exprcol_stmt], Or.inl rfl⟩
  have h := (c3_bad_decltype_panics_worker exprcol_conn "SELECT count(*) FROM t"
    exprcol_stmt hbad).1 (by decide) rfl
  exact ⟨hbad, h.1, h.2⟩

/-- C4: the claim says a Bind whose statement declares an unsupported
parameter OID is rejected with a clear error returned to the client,
the other parameters untouched. The code instead hits the
unimplemented! arm, modelled as the none (panic) outcome: parse_params
delivers neither a parameter list nor any error value, tearing the
connection task down, even though the other bound parameter alone would
coerce fine. -/
theorem c4_unsupported_param_oid_panics :
    parse_params uuid_bind_portal = none ∧
    parse_param_at uuid_bind_portal 0 = none ∧
    parse_param_at uuid_bind_portal 1 = some ⟨none, some 1, none, .integer 7⟩ :=
  ⟨rfl, rfl, rfl⟩

/-- C5: declared-column-type derivation agrees everywhere with the
spec's table read as uppercase-then-strip-qualifiers-then-look-up (INT
and SERIAL to integer, VARCHAR and TEXT to text, DATE, TIME, TIMESTAMP
and FLOAT to real, BINARY to blob, anything else the 42846 severity
ERROR error); the homomorphism examples follow: varchar(64) maps like
VARCHAR and int NOT NULL maps like INT. -/
theorem c5_declared_type_derivation :
    (∀ t, get_sqlite_type_for_type t = specTypeForDeclared t) ∧
    strip_qual (to_uppercase "varchar(64)") = "VARCHAR" ∧
    get_sqlite_type_for_type "varchar(64)" = get_sqlite_type_for_type "VARCHAR" ∧
    get_sqlite_type_for_type "varchar(64)" = .ok .text ∧
    strip_qual (to_uppercase "int NOT NULL") = "INT" ∧
    get_sqlite_type_for_type "int NOT NULL" = get_sqlite_type_for_type "INT" ∧
    get_sqlite_type_for_type "int NOT NULL" = .ok .integer ∧
    get_sqlite_type_for_type "INTEGER" =
      .error (.userError ⟨"ERROR", "42846", "Unsupported data type: INTEGER"⟩) := by
  refine ⟨?_, by decide, rfl, rfl, by decide, rfl, rfl, rfl⟩
  intro t
  unfold get_sqlite_type_for_type
  dsimp only
  split <;>
    simp_all [specTypeForDeclared, strip_qual, specDeclaredTypeTable, tableLookup]

/-- C6: a SimpleQuery or QueryWithParams whose uppercased SQL begins
with SELECT is prepared, its schema derived from column metadata and
its rows materialized into Records; any other SQL is executed as a
statement and answered with the single-column schema (OK, integer) and
exactly one Record holding the affected-row count. -/
theorem c6_worker_query_dispatch (con : SQLiteConn) (q : String) :
    (∀ n, starts_with (to_uppercase q) "SELECT" = false →
      con.execute q = .ok n →
      backend_query con q = some (.ok ⟨some [⟨0, "OK", .integer⟩],
        some [⟨[.integer (Int.ofNat n)]⟩], none⟩)) ∧
    (∀ stmt fields rows recs,
      starts_with (to_uppercase q) "SELECT" = true →
      con.prepare q = .ok stmt →
      build_record_schema_from_statement stmt.columns = some fields →
      stmt.query_rows [] = .ok rows →
      build_records rows fields.length = some recs →
      backend_query con q = some (.ok ⟨some fields, some recs, none⟩)) ∧
    (∀ ps stmt n, starts_with (to_uppercase q) "SELECT" = false →
      con.prepare_cached q = .ok stmt →
      stmt.exec (ps.map (·.value)) = .ok n →
      backend_query_with_params con q ps = some (.ok ⟨some [⟨0, "OK", .integer⟩],
        some [⟨[.integer (Int.ofNat n)]⟩], none⟩)) ∧
    (∀ ps stmt fields rows recs,
      starts_with (to_uppercase q) "SELECT" = true →
      con.prepare_cached q = .ok stmt →
      build_record_schema_from_statement stmt.columns = some fields →
      stmt.query_rows (ps.map (·.value)) = .ok rows →
      build_records rows fields.length = some recs →
      backend_query_with_params con q ps = some (.ok ⟨some fields, some recs, none⟩)) := by
  refine ⟨?_, ?_, ?_, ?_⟩
  · intro n hq hex
    unfold backend_query
    simp only [hq, if_false, hex]
    rfl
  · intro stmt fields rows recs hq hprep hschema hrows hrecs
    unfold backend_query
    simp only [hq, if_true, hprep, hschema, hrows, hrecs]
  · intro ps stmt n hq hprep hex
    unfold backend_query_with_params
    simp only [hprep, hq, if_false, hex]
    rfl
  · intro ps stmt fields rows recs hq hprep hschema hrows hrecs
    unfold backend_query_with_params
    simp only [hprep, hq, if_true, hschema, hrows, hrecs]

/-- C6 witness: on demo_conn, the SELECT goes through prepare, schema
derivation and row materialization; the CREATE and INSERT come back as
the (OK, integer) schema with the affected-row count 2. -/
theorem c6_witness :
    backend_query demo_conn "SELECT id, name FROM t" =
      some (.ok ⟨some [⟨0, "id", .integer⟩, ⟨1, "name", .text⟩],
                 some [⟨[.integer 1, .text "a"]⟩, ⟨[.integer 2, .text "b"]⟩], none⟩) ∧
    backend_query demo_conn "CREATE TABLE t(id INT)" =
      some (.ok ⟨some [⟨0, "OK", .integer⟩], some [⟨[.integer 2]⟩], none⟩) ∧
    backend_query_with_params demo_conn "INSERT INTO t VALUES (1)" [] =
      some (.ok ⟨some [⟨0, "OK", .integer⟩], some [⟨[.integer 2]⟩], none⟩) ∧
    backend_query_with_params demo_conn "SELECT id, name FROM t" [] =
      some (.ok ⟨some [⟨0, "id", .integer⟩, ⟨1, "name", .text⟩],
                 some [⟨[.integer 1, .text "a"]⟩, ⟨[.integer 2, .text "b"]⟩], none⟩) := by
  refine ⟨?_, ?_, ?_, ?_⟩
  · exact (c6_worker_query_dispatch demo_conn "SELECT id, name FROM t").2.1
      demo_stmt [⟨0, "id", .integer⟩, ⟨1, "name", .text⟩]
      [[.integer 1, .text "a"], [.integer 2, .text "b"]]
      [⟨[.integer 1, .text "a"]⟩, ⟨[.integer 2, .text "b"]⟩]
      (by decide) rfl rfl rfl rfl
  · exact (c6_worker_query_dispatch demo_conn "CREATE TABLE t(id INT)").1 2
      (by decide) rfl
  · exact (c6_worker_query_dispatch demo_conn "INSERT INTO t VALUES (1)").2.2.1 []
      demo_stmt 2 (by decide) rfl rfl
  · exact (c6_worker_query_dispatch demo_conn "SELECT id, name FROM t").2.2.2 []
      demo_stmt [⟨0, "id", .integer⟩, ⟨1, "name", .text⟩]
      [[.integer 1, .text "a"], [.integer 2, .text "b"]]
      [⟨[.integer 1, .text "a"]⟩, ⟨[.integer 2, .text "b"]⟩]
      (by decide) rfl rfl rfl rfl

/-- C7: every backend round trip — simple query, extended execute,
describe — waits 10 seconds on the response channel and maps a timeout
and a closed channel to FATAL XX000 errors with two distinct message
texts. -/
theorem c7_roundtrip_timeout_translation :
    backendWaitSeconds = 10 ∧
    do_query_recv_simple .timeout = .error (.userError
      ⟨"FATAL", "XX000", "Timeout waiting for response from the database"⟩) ∧
    do_query_recv_simple .disconnected = .error (.userError
      ⟨"FATAL", "XX000", "Was disconnected from the database backend"⟩) ∧
    do_query_recv_extended .timeout = .error (.userError
      ⟨"FATAL", "XX000", "Timeout waiting for response from the database"⟩) ∧
    do_query_recv_extended .disconnected = .error (.userError
      ⟨"FATAL", "XX000", "Was disconnected from the database backend"⟩) ∧
    do_describe_recv .timeout = .error (.userError
      ⟨"FATAL", "XX000", "Timeout waiting for response from the database"⟩) ∧
    do_describe_recv .disconnected = .error (.userError
      ⟨"FATAL", "XX000", "Was disconnected from the database backend"⟩) ∧
    "Timeout waiting for response from the database" ≠
      "Was disconnected from the database backend" ∧
    (∀ recv, do_query_simple_wait recv = do_query_recv_simple (recv 10)) ∧
    (∀ recv, do_query_extended_wait recv = do_query_recv_extended (recv 10)) ∧
    (∀ recv, do_describe_wait recv = do_describe_recv (recv 10)) :=
  ⟨rfl, rfl, rfl, rfl, rfl, rfl, rfl, by decide,
   fun _ => rfl, fun _ => rfl, fun _ => rfl⟩

/-- C8: the cleartext authenticator accepts exactly the password that
equals the configured secret — defaulting to the literal "123" when no
credential is configured — returning the metadata user, database and
dbpath = user/database; a mismatch is the FATAL 28P01 error. -/
theorem c8_cleartext_authenticator (auth_config : Option String)
    (user db pw : String) :
    create_authenticator none = "123" ∧
    ((∃ m, verify_identity (create_authenticator auth_config) (some pw) user db = .ok m) ↔
      pw = create_authenticator auth_config) ∧
    (pw = create_authenticator auth_config →
      verify_identity (create_authenticator auth_config) (some pw) user db =
        .ok [("user", user), ("database", db), ("dbpath", path_join user db)]) ∧
    (starts_with db "/" = false → path_join user db = user ++ "/" ++ db) ∧
    (pw ≠ create_authenticator auth_config →
      verify_identity (create_authenticator auth_config) (some pw) user db =
        .error ⟨"FATAL", "28P01",
          "Authentication was not successful, please check you have provided the correct credentials for this database."⟩) := by
  refine ⟨rfl, ?_, ?_, ?_, ?_⟩
  · constructor
    · rintro ⟨m, hm⟩
      unfold verify_identity at hm
      dsimp only at hm
      by_cases h : create_authenticator auth_config = pw
      · exact h.symm
      · rw [if_neg h] at hm
        cases hm
    · intro h
      subst h
      refine ⟨[("user", user), ("database", db), ("dbpath", path_join user db)], ?_⟩
      unfold verify_identity
      dsimp only
      rw [if_pos rfl]
  · intro h
    subst h
    unfold verify_identity
    dsimp only
    rw [if_pos rfl]
  · intro h
    simp [path_join, h]
  · intro h
    unfold verify_identity
    dsimp only
    rw [if_neg (fun hh => h hh.symm)]

/-- C8 witness: with no credential configured the secret is "123";
alice/notes with password "123" gets the metadata including dbpath
alice/notes, and password "wrong" gets the FATAL 28P01 error. -/
theorem c8_witness :
    verify_identity (create_authenticator none) (some "123") "alice" "notes" =
      .ok [("user", "alice"), ("database", "notes"), ("dbpath", "alice/notes")] ∧
    verify_identity (create_authenticator none) (some "wrong") "alice" "notes" =
      .error ⟨"FATAL", "28P01",
        "Authentication was not successful, please check you have provided the correct credentials for this database."⟩ := by
  constructor
  · have h := (c8_cleartext_authenticator none "alice" "notes" "123").2.2.1 (by decide)
    exact h.trans (by rfl)
  · exact (c8_cleartext_authenticator none "alice" "notes" "wrong").2.2.2.2 (by decide)

/-- C9: a GSSENC request elicits the single byte N with its 8 bytes
consumed; an SSL request elicits S exactly when a TLS acceptor is
configured and N otherwise (also consuming the 8 bytes); when neither
magic matches, the peeked bytes stay in the stream — and in this build
the TLS acceptor is unconditionally absent. -/
theorem c9_prestartup_peeks (b0 b1 b2 b3 b4 b5 b6 b7 : UInt8) (rest : List UInt8)
    (tls : Bool) :
    (get_i32 b4 b5 b6 b7 = GSSENC_REQUEST_MAGIC_NUMBER →
      peek_for_gssenc_request (b0 :: b1 :: b2 :: b3 :: b4 :: b5 :: b6 :: b7 :: rest) =
        (['N'], rest)) ∧
    (get_i32 b4 b5 b6 b7 = SSL_BODY_MAGIC_NUMBER →
      peek_for_tls_request (b0 :: b1 :: b2 :: b3 :: b4 :: b5 :: b6 :: b7 :: rest) tls =
        if tls then (['S'], rest, true) else (['N'], rest, false)) ∧
    (get_i32 b4 b5 b6 b7 ≠ GSSENC_REQUEST_MAGIC_NUMBER →
      peek_for_gssenc_request (b0 :: b1 :: b2 :: b3 :: b4 :: b5 :: b6 :: b7 :: rest) =
        ([], b0 :: b1 :: b2 :: b3 :: b4 :: b5 :: b6 :: b7 :: rest)) ∧
    (get_i32 b4 b5 b6 b7 ≠ SSL_BODY_MAGIC_NUMBER →
      peek_for_tls_request (b0 :: b1 :: b2 :: b3 :: b4 :: b5 :: b6 :: b7 :: rest) tls =
        ([], b0 :: b1 :: b2 :: b3 :: b4 :: b5 :: b6 :: b7 :: rest, false)) ∧
    tls_acceptor_configured = false := by
  refine ⟨?_, ?_, ?_, ?_, rfl⟩ <;> intro h <;>
    simp [peek_for_gssenc_request, peek_for_tls_request, peek_for_magic, h]

/-- C9 witness: the concrete 8-byte GSSENC request (magic 80877104)
gets N and is consumed; the concrete SSL request (magic 80877103) gets
N without TLS and S with TLS; a startup header matching neither magic
is left in the stream untouched. -/
theorem c9_witness :
    peek_for_gssenc_request [0, 0, 0, 8, 4, 210, 22, 48] = (['N'], []) ∧
    peek_for_tls_request [0, 0, 0, 8, 4, 210, 22, 47] false = (['N'], [], false) ∧
    peek_for_tls_request [0, 0, 0, 8, 4, 210, 22, 47] true = (['S'], [], true) ∧
    peek_for_gssenc_request [0, 0, 0, 8, 0, 3, 0, 0] =
      ([], [0, 0, 0, 8, 0, 3, 0, 0]) := by
  refine ⟨(c9_prestartup_peeks 0 0 0 8 4 210 22 48 [] false).1 (by decide), ?_, ?_,
    (c9_prestartup_peeks 0 0 0 8 0 3 0 0 [] false).2.2.1 (by decide)⟩
  · have h := (c9_prestartup_peeks 0 0 0 8 4 210 22 47 [] false).2.1 (by decide)
    simpa using h
  · have h := (c9_prestartup_peeks 0 0 0 8 4 210 22 47 [] true).2.1 (by decide)
    simpa using h

/-- C10: when the parsed statement declares no parameter type at
ordinal i although the Bind supplied a parameter there, the parameter
sent to the backend at ordinal i is null, whatever the client-supplied
bytes decode to. -/
theorem c10_missing_declared_type_is_null (portal : PortalModel) (i : Nat)
    (out : List PgLiteDBParam)
    (hi : i < portal.parameter_len)
    (ht : portal.parameter_types.get? i = none)
    (hp : parse_params portal = some out) :
    out.get? i = some ⟨none, some i, none, .null⟩ := by
  have h := parse_params_from_get portal portal.parameter_len 0 out hp i hi
  rw [h, Nat.zero_add]
  unfold parse_param_at
  rw [ht]

/-- C10 witness: two bound parameters, only one declared type; the
client supplied the integer 7 at both ordinals, yet ordinal 1 goes to
the backend as null. -/
theorem c10_witness :
    parse_params short_typed_portal =
      some [⟨none, some 0, none, .integer 7⟩, ⟨none, some 1, none, .null⟩] ∧
    ([⟨none, some 0, none, .integer 7⟩,
      ⟨none, some 1, none, .null⟩] : List PgLiteDBParam).get? 1 =
      some ⟨none, some 1, none, .null⟩ := by
  constructor
  · rfl
  · exact c10_missing_declared_type_is_null short_typed_portal 1 _ (by decide) rfl rfl

end PgLite
